import Mathlib

set_option maxHeartbeats 1000000

/- Verification of the colour-datasets Labsphere (2019) dataset loader
   (src/colour_datasets/loaders/labsphere2019.py) and of the
   unicode-to-ASCII utility (src/utilities/unicode_to_ascii.py).

   The loader's parsing pipeline (numpy.loadtxt with a tab delimiter and two
   skipped rows, colour.utilities.tsplit, and the colour.SpectralDistribution
   constructor) is embedded below over exact rational numbers; the
   Synchronizer (`AbstractDatasetLoader.sync`), the Record Resolver
   (`colour_datasets.records.datasets`) and the base-class state are
   repository code that is not part of the given sources and are modelled
   from the spec where noted. -/

/-- Modelled from the spec: a dataset `Record` — the stable dataset `id` and
the local `repository` path where synchronised content lives (spec section 3;
the Record type is owned by the Record Resolver, outside the given sources). -/
structure Record where
  id : String
  repository : String

deriving instance DecidableEq for Record

/-- The spectral-distribution container of the external colour library,
kept opaque per the spec: a `name`, a `domain` (wavelength samples) and a
`range` (values), stored exactly as handed to the constructor. -/
structure SpectralDistribution where
  name : String
  domain : List Rat
  range : List Rat

deriving instance DecidableEq for SpectralDistribution

/-- `colour.SpectralDistribution(data, domain, name=...)`: by the colour
library's documented signature the first positional argument holds the values
(the range) and the second the wavelengths (the domain). -/
def SpectralDistribution.ofArrays (data domain : List Rat) (name : String) :
    SpectralDistribution :=
  { name := name, domain := domain, range := data }

/-- Kinds of error a `load` call can surface: a Synchronizer failure, the
file reader's error on a missing file (OSError of numpy.loadtxt), its error
on non-numeric or ragged rows (ValueError), and an index error on arrays
with fewer than two columns. -/
inductive LoadError where
  | syncError
  | ioError
  | valueError
  | indexError

deriving instance DecidableEq for LoadError

/-- Split a character list at every occurrence of `sep`, keeping empty
groups, as Python `str.split(sep)` does. -/
def splitOn (sep : Char) : List Char → List (List Char)
  | [] => [[]]
  | c :: cs =>
      let r := splitOn sep cs
      if c = sep then [] :: r
      else
        match r with
        | [] => [[c]]
        | g :: gs => (c :: g) :: gs

/-- Characters stripped around numeric fields and data lines (spaces and
carriage returns). -/
def isBlank (c : Char) : Bool := c == ' ' || c == '\r'

def trimBlanks (cs : List Char) : List Char :=
  ((cs.dropWhile isBlank).reverse.dropWhile isBlank).reverse

def digitVal (c : Char) : Option Nat :=
  if '0' ≤ c ∧ c ≤ '9' then some (c.toNat - '0'.toNat) else none

def parseDigitsAux : List Char → Nat → Option Nat
  | [], acc => some acc
  | c :: cs, acc =>
      match digitVal c with
      | some d => parseDigitsAux cs (acc * 10 + d)
      | none => none

/-- Parse an unsigned decimal numeral (integer part, optional fractional
part) into an exact rational. -/
def parseUnsigned (cs : List Char) : Option Rat :=
  match splitOn '.' cs with
  | [ip] => if ip.isEmpty then none else (parseDigitsAux ip 0).map (fun n => (n : Rat))
  | [ip, fp] =>
      if ip.isEmpty && fp.isEmpty then none
      else
        match parseDigitsAux ip 0, parseDigitsAux fp 0 with
        | some i, some f => some ((i : Rat) + (f : Rat) / ((10 : Rat) ^ fp.length))
        | _, _ => none
  | _ => none

/-- Parse a possibly signed decimal numeral, as Python `float` does on the
plain decimal notation used by this dataset (scientific notation and special
values lie outside the modelled fragment). -/
def parseDecimal : List Char → Option Rat
  | '-' :: cs => (parseUnsigned cs).map (fun q => -q)
  | '+' :: cs => parseUnsigned cs
  | cs => parseUnsigned cs

/-- Keep a line up to numpy.loadtxt's default comment character. -/
def stripComment (cs : List Char) : List Char := cs.takeWhile (fun c => c != '#')

def parseFields : List (List Char) → Option (List Rat)
  | [] => some []
  | f :: fs =>
      match parseDecimal (trimBlanks f), parseFields fs with
      | some v, some vs => some (v :: vs)
      | _, _ => none

/-- One data line: split on the tab delimiter and parse every field. -/
def parseRow (line : List Char) : Option (List Rat) :=
  parseFields (splitOn '\t' line)

def parseRows : List (List Char) → Option (List (List Rat))
  | [] => some []
  | l :: ls =>
      match parseRow l, parseRows ls with
      | some r, some rs => some (r :: rs)
      | _, _ => none

def uniformRows : List (List Rat) → Bool
  | [] => true
  | r :: rs => rs.all (fun x => x.length == r.length)

/-- `numpy.loadtxt(sd_path, delimiter="\t", skiprows=2)`: drop the first two
lines, ignore blank lines and comments, split each remaining line on tabs and
parse every field; non-numeric fields or ragged rows give the reader's
ValueError. -/
def loadtxtRows (content : List Char) : Except LoadError (List (List Rat)) :=
  let ls := ((splitOn '\n' content).drop 2).map (fun l => trimBlanks (stripComment l))
  let ls := ls.filter (fun l => !(l.isEmpty))
  match parseRows ls with
  | none => Except.error LoadError.valueError
  | some rows =>
      if uniformRows rows then Except.ok rows else Except.error LoadError.valueError

/-- Column `j` of a parsed table: `colour.utilities.tsplit` splits a 2-D
array along its last axis, so `values[j]` is the j-th column. -/
def columnOf : List (List Rat) → Nat → Option (List Rat)
  | [], _ => some []
  | r :: rs, j =>
      match r.get? j, columnOf rs j with
      | some v, some vs => some (v :: vs)
      | _, _ => none

/-- The parser step of `DatasetLoader_Labsphere2019.load`: read the data
file (`none` = missing file), run the loadtxt step, tsplit into columns, and
build `SpectralDistribution(values[1], values[0], name="Labsphere
SRS-99-020")` — values (range) from column 1, wavelengths (domain) from
column 0.  Tables with fewer than two columns are outside the modelled
domain of the underlying 2-D reader and are mapped to an index error. -/
def parseSRS (fileContent : Option (List Char)) : Except LoadError SpectralDistribution :=
  match fileContent with
  | none => Except.error LoadError.ioError
  | some content =>
      match loadtxtRows content with
      | Except.error e => Except.error e
      | Except.ok rows =>
          if rows.isEmpty then Except.error LoadError.indexError
          else
            match columnOf rows 0, columnOf rows 1 with
            | some col0, some col1 =>
                Except.ok (SpectralDistribution.ofArrays col1 col0 "Labsphere SRS-99-020")
            | _, _ => Except.error LoadError.indexError

/-- The content mapping a loader produces: distribution name to spectral
distribution. -/
abbrev Content := List (String × SpectralDistribution)

/-- Modelled from the spec: the environment a load runs in — the outcome of
the Synchronizer (`AbstractDatasetLoader.sync`, repository code not under the
given sources; spec section 4.1), the Record Resolver (spec section 6; `none`
is `UnknownDatasetError`), and the local filesystem boundary mapping a path
to file bytes. -/
structure Env where
  syncOk : Bool
  datasets : String → Option Record
  fs : String → Option (List Char)

structure DatasetLoader_Labsphere2019 where
  record : Record
  content : Option Content

deriving instance DecidableEq for DatasetLoader_Labsphere2019

def DatasetLoader_Labsphere2019.ID : String := "3245875"

/-- `os.path.join(self.record.repository, "dataset", "SRS-99-020.txt")`. -/
def sdPathStr (r : Record) : String := r.repository ++ "/dataset/SRS-99-020.txt"

/-- `DatasetLoader_Labsphere2019.__init__`: bind the record resolved for
`ID`; `content` starts absent (base-class state, modelled from the spec:
content is absent until the first successful load). -/
def mkLoader (r : Record) : DatasetLoader_Labsphere2019 :=
  { record := r, content := none }

/-- Errors surfacing from `build_Labsphere2019`: a construction failure of
the Record Resolver, or an error propagated from the eager load. -/
inductive BuildError where
  | unknownDataset
  | loadFailed (e : LoadError)

deriving instance DecidableEq for BuildError

def DatasetLoader_Labsphere2019.init (env : Env) :
    Except BuildError DatasetLoader_Labsphere2019 :=
  match env.datasets DatasetLoader_Labsphere2019.ID with
  | some r => Except.ok (mkLoader r)
  | none => Except.error BuildError.unknownDataset

/-- `DatasetLoader_Labsphere2019.load`: sync, then parse the data file and
assign the one-entry mapping to `content` in a single full-result
assignment; on any failure the state is returned unchanged and the error is
surfaced as the result. -/
def DatasetLoader_Labsphere2019.load (env : Env)
    (self : DatasetLoader_Labsphere2019) :
    DatasetLoader_Labsphere2019 × Except LoadError Content :=
  if env.syncOk then
    match parseSRS (env.fs (sdPathStr self.record)) with
    | Except.error e => (self, Except.error e)
    | Except.ok sd =>
        let c : Content := [("Labsphere SRS-99-020", sd)]
        ({ self with content := some c }, Except.ok c)
  else (self, Except.error LoadError.syncError)

/-- `build_Labsphere2019`: the singleton factory.  The module-level slot is
threaded explicitly; when it is empty the instance is constructed (the slot
stays empty if construction itself fails) and, when the `load` flag is set,
eagerly loaded (the slot keeps the instance even when the eager load fails,
and the load error is re-raised). -/
def build_Labsphere2019 (env : Env) (load : Bool)
    (slot : Option DatasetLoader_Labsphere2019) :
    Option DatasetLoader_Labsphere2019 × Except BuildError DatasetLoader_Labsphere2019 :=
  match slot with
  | some l => (some l, Except.ok l)
  | none =>
      match DatasetLoader_Labsphere2019.init env with
      | Except.error e => (none, Except.error e)
      | Except.ok inst =>
          if load then
            match DatasetLoader_Labsphere2019.load env inst with
            | (inst2, Except.error e) => (some inst2, Except.error (BuildError.loadFailed e))
            | (inst2, Except.ok _) => (some inst2, Except.ok inst2)
          else (some inst, Except.ok inst)

deriving instance DecidableEq for Except

unseal Nat.gcd Rat.mul Rat.inv Rat.add Rat.ofScientific

/-- The apostrophe character, U+0027. -/
def apostrophe : Char := Char.ofNat 39

/-- `SUBSTITUTIONS` of src/utilities/unicode_to_ascii.py: every key is one
character (en dash, curly quotes, prime) and every value one ASCII
character; the list keeps the dict's insertion order, which is the order the
replacements run in. -/
def SUBSTITUTIONS : List (Char × Char) :=
  [('–', '-'), ('“', '"'), ('”', '"'), ('‘', apostrophe), ('’', apostrophe),
    ('′', apostrophe)]

/-- Python `content.replace(key, value)` for the one-character keys and
values of `SUBSTITUTIONS`. -/
def replaceChar (key value : Char) (cs : List Char) : List Char :=
  cs.map fun c => if c = key then value else c

/-- The substitution loop of `unicode_to_ascii`: apply every replacement of
`SUBSTITUTIONS` in order. -/
def substitute (cs : List Char) : List Char :=
  SUBSTITUTIONS.foldl (fun acc kv => replaceChar kv.fst kv.snd acc) cs

/-- The effect of the whole substitution loop on one character. -/
def substOne (c : Char) : Char :=
  SUBSTITUTIONS.foldl (fun a kv => if a = kv.fst then kv.snd else a) c

/-- Whether a character is a key of `SUBSTITUTIONS`. -/
def isKey (c : Char) : Bool := (SUBSTITUTIONS.map Prod.fst).contains c

/-- Whether a text contains no key of `SUBSTITUTIONS`. -/
def keyFree (cs : List Char) : Bool := cs.all fun c => !(isKey c)

/-- The per-file text transformation of `unicode_to_ascii`: run the
substitution loop, then Unicode NFD normalization (`unicodedata.normalize`,
Python standard library, abstracted as the `normalize` argument). -/
def unicode_to_ascii_transform (normalize : List Char → List Char)
    (cs : List Char) : List Char :=
  normalize (substitute cs)

/-- The extension filter of `unicode_to_ascii`: only `.tex`, `.py`, `.bib`
and `.rst` files are rewritten, and `unicode_to_ascii.py` itself is skipped. -/
def eligibleFile (name : List Char) : Bool :=
  (List.isSuffixOf ".tex".data name || List.isSuffixOf ".py".data name
      || List.isSuffixOf ".bib".data name || List.isSuffixOf ".rst".data name)
    && !(name == "unicode_to_ascii.py".data)

/-- One run of `unicode_to_ascii` over a directory, modelled as a list of
(filename, content) pairs: every eligible file's content is rewritten with
the per-file transformation; other files are untouched. -/
def unicode_to_ascii (normalize : List Char → List Char)
    (files : List (List Char × List Char)) : List (List Char × List Char) :=
  files.map fun f =>
    if eligibleFile f.fst then (f.fst, unicode_to_ascii_transform normalize f.snd)
    else f

/-- The literal dataset of the spec's deterministic-parse property. -/
def C1content : List Char := "H1\nH2\n0.98\t400\n0.99\t500\n1.00\t600\n".data

/-- The spectral distribution the parser actually produces on `C1content`:
column 0 (the values 0.98, 0.99, 1.00) lands in the domain and column 1
(the wavelengths 400, 500, 600) in the range. -/
def C1sd : SpectralDistribution :=
  { name := "Labsphere SRS-99-020", domain := [(0.98 : Rat), 0.99, 1],
    range := [(400 : Rat), 500, 600] }

def wRec : Record := { id := "3245875", repository := "repo" }

/-- A healthy run: the record resolves, sync succeeds and the data file holds
`C1content`. -/
def wEnvOk : Env :=
  { syncOk := true
    datasets := fun s => if s = "3245875" then some wRec else none
    fs := fun p => if p = sdPathStr wRec then some C1content else none }

/-- Same world with a failing Synchronizer. -/
def wEnvSyncFail : Env :=
  { syncOk := false
    datasets := wEnvOk.datasets
    fs := wEnvOk.fs }

def wContent : Content := [("Labsphere SRS-99-020", C1sd)]

def wLoaded : DatasetLoader_Labsphere2019 :=
  { record := wRec, content := some wContent }

/-- A dataset whose column of wavelengths (column 1 under the claim's
row-order reading, and column 0 under the code's) is not strictly
increasing in either reading. -/
def C5content : List Char := "H1\nH2\n3\t600\n1\t500\n2\t400\n".data

def C5sd : SpectralDistribution :=
  { name := "Labsphere SRS-99-020", domain := [(3 : Rat), 1, 2],
    range := [(600 : Rat), 500, 400] }

def C5env : Env :=
  { syncOk := true
    datasets := wEnvOk.datasets
    fs := fun p => if p = sdPathStr wRec then some C5content else none }

/-- A ragged dataset: the second data row has one field where the first has
two. -/
def C5ragged : List Char := "H1\nH2\n1\t2\n3\n".data

def C5envMissing : Env :=
  { syncOk := true
    datasets := wEnvOk.datasets
    fs := fun _ => none }

def C5envRagged : Env :=
  { syncOk := true
    datasets := wEnvOk.datasets
    fs := fun p => if p = sdPathStr wRec then some C5ragged else none }

/-- The combining acute accent, U+0301. -/
def combiningAcute : Char := Char.ofNat 769

/-- A miniature canonical decomposition used to witness the normalization
hypotheses: it decomposes the precomposed letter e-acute and fixes every
other character. -/
def decomposeDemo (c : Char) : List Char :=
  if c = 'é' then ['e', combiningAcute] else [c]

def nfdDemo (cs : List Char) : List Char := cs.flatMap decomposeDemo

def C10demoText : List Char := ['“', 'é', '–', 'a']

/-- Any failing load returns the loader state unchanged. -/
theorem load_error_state (env : Env) (s s' : DatasetLoader_Labsphere2019)
    (e : LoadError)
    (h : DatasetLoader_Labsphere2019.load env s = (s', Except.error e)) :
    s' = s := by
  unfold DatasetLoader_Labsphere2019.load at h
  split at h
  · split at h
    · simp only [Prod.mk.injEq] at h
      exact h.1.symm
    · simp at h
  · simp only [Prod.mk.injEq] at h
    exact h.1.symm

/-- Any successful load returns the one-entry mapping built from the parsed
spectral distribution and stores it wholesale in `content`. -/
theorem load_ok_eq (env : Env) (s s' : DatasetLoader_Labsphere2019) (c : Content)
    (h : DatasetLoader_Labsphere2019.load env s = (s', Except.ok c)) :
    ∃ sd, parseSRS (env.fs (sdPathStr s.record)) = Except.ok sd ∧
      c = [("Labsphere SRS-99-020", sd)] ∧
      s' = { record := s.record, content := some c } := by
  unfold DatasetLoader_Labsphere2019.load at h
  split at h
  · split at h
    · simp at h
    · rename_i sd hp
      simp only [Prod.mk.injEq, Except.ok.injEq] at h
      refine ⟨sd, hp, h.2.symm, ?_⟩
      rw [← h.1, ← h.2]
  · simp at h

/-- A successfully parsed spectral distribution carries the dataset's name. -/
theorem parseSRS_name (o : Option (List Char)) (sd : SpectralDistribution)
    (h : parseSRS o = Except.ok sd) : sd.name = "Labsphere SRS-99-020" := by
  unfold parseSRS at h
  split at h
  · simp at h
  · split at h
    · simp at h
    · split at h
      · simp at h
      · split at h
        · rename_i col0 col1 _
          simp only [Except.ok.injEq] at h
          rw [← h]
          rfl
        · simp at h


/-- C2: if a `load()` call fails — in the sync step or in the parse step —
the loader is left exactly as it was, so `content` keeps its previous value;
in particular, after one successful `load()`, a second failing `load()`
leaves `content` equal to the first call's result, and the error is the sync
or parse error itself, unchanged in kind. -/
theorem C2_load_failure_nondestructive :
    (∀ (env : Env) (s s' : DatasetLoader_Labsphere2019) (e : LoadError),
        DatasetLoader_Labsphere2019.load env s = (s', Except.error e) → s' = s) ∧
    (∀ (env1 env2 : Env) (s s1 s2 : DatasetLoader_Labsphere2019) (c : Content)
        (e : LoadError),
        DatasetLoader_Labsphere2019.load env1 s = (s1, Except.ok c) →
        DatasetLoader_Labsphere2019.load env2 s1 = (s2, Except.error e) →
        s2.content = some c) := by
  refine ⟨fun env s s' e h => load_error_state env s s' e h, ?_⟩
  intro env1 env2 s s1 s2 c e h1 h2
  obtain ⟨sd, hp, hc, hs1⟩ := load_ok_eq env1 s s1 c h1
  rw [load_error_state env2 s1 s2 e h2, hs1]

/-- C2 witness: a concrete successful load followed by a load with a failing
Synchronizer. -/
theorem C2_witness : wLoaded.content = some wContent :=
  C2_load_failure_nondestructive.2 wEnvOk wEnvSyncFail (mkLoader wRec) wLoaded
    wLoaded wContent LoadError.syncError (by decide) (by decide)

/-- C6: a successful `load()` returns the new content mapping — equal to the
instance's `content` attribute after the call — replaces the prior value by
one full-result assignment, and the mapping has exactly one entry. -/
theorem C6_load_returns_content :
    ∀ (env : Env) (s s' : DatasetLoader_Labsphere2019) (c : Content),
      DatasetLoader_Labsphere2019.load env s = (s', Except.ok c) →
      s'.content = some c ∧ c.length = 1 ∧
      s' = { record := s.record, content := some c } := by
  intro env s s' c h
  obtain ⟨sd, hp, hc, hs⟩ := load_ok_eq env s s' c h
  refine ⟨?_, ?_, hs⟩
  · rw [hs]
  · rw [hc]
    rfl

/-- C6 witness: the concrete healthy run. -/
theorem C6_witness :
    wLoaded.content = some wContent ∧ wContent.length = 1 ∧
      wLoaded = { record := (mkLoader wRec).record, content := some wContent } :=
  C6_load_returns_content wEnvOk (mkLoader wRec) wLoaded wContent (by decide)

/-- C7: `record` is bound at construction to the Record the resolver returns
for dataset id "3245875" and is never touched again: every `load()` call,
successful or failed, returns a state with the same `record`. -/
theorem C7_record_immutable :
    (∀ (env : Env) (s : DatasetLoader_Labsphere2019),
        ((DatasetLoader_Labsphere2019.load env s).fst).record = s.record) ∧
    (∀ (env : Env) (s : DatasetLoader_Labsphere2019),
        DatasetLoader_Labsphere2019.init env = Except.ok s →
        env.datasets "3245875" = some s.record ∧ s.content = none) := by
  constructor
  · intro env s
    unfold DatasetLoader_Labsphere2019.load
    split
    · split <;> rfl
    · rfl
  · intro env s h
    unfold DatasetLoader_Labsphere2019.init at h
    split at h
    · rename_i r hr
      simp only [Except.ok.injEq] at h
      rw [← h]
      exact ⟨hr, rfl⟩
    · simp at h

/-- C7 witness: the concrete construction and a failing load. -/
theorem C7_witness :
    wEnvOk.datasets "3245875" = some (mkLoader wRec).record ∧
      (mkLoader wRec).content = none :=
  C7_record_immutable.2 wEnvOk (mkLoader wRec) (by decide)

/-- C8: after a successful `load()` the single entry of `content` is
internally consistent — the key is "Labsphere SRS-99-020" and equals the
`name` of the spectral distribution stored under it. -/
theorem C8_content_entry_consistent :
    ∀ (env : Env) (s s' : DatasetLoader_Labsphere2019) (c : Content),
      DatasetLoader_Labsphere2019.load env s = (s', Except.ok c) →
      ∃ sd, c = [("Labsphere SRS-99-020", sd)] ∧
        sd.name = "Labsphere SRS-99-020" := by
  intro env s s' c h
  obtain ⟨sd, hp, hc, hs⟩ := load_ok_eq env s s' c h
  exact ⟨sd, hc, parseSRS_name (env.fs (sdPathStr s.record)) sd hp⟩

/-- C8 witness: the concrete healthy run. -/
theorem C8_witness :
    ∃ sd, wContent = [("Labsphere SRS-99-020", sd)] ∧
      sd.name = "Labsphere SRS-99-020" :=
  C8_content_entry_consistent wEnvOk (mkLoader wRec) wLoaded wContent (by decide)

/-- C3: once the singleton slot holds an instance, every later
`build_Labsphere2019` call returns that very instance whatever its `load`
flag says; on the very first call the instance is constructed from the
resolved record and, exactly when the flag is true, `load()` runs on it
before it is returned. -/
theorem C3_singleton_build :
    (∀ (env : Env) (flag : Bool) (l : DatasetLoader_Labsphere2019),
        build_Labsphere2019 env flag (some l) = (some l, Except.ok l)) ∧
    (∀ (env : Env) (r : Record),
        env.datasets DatasetLoader_Labsphere2019.ID = some r →
        build_Labsphere2019 env false none =
          (some (mkLoader r), Except.ok (mkLoader r)) ∧
        (build_Labsphere2019 env true none).fst =
          some ((DatasetLoader_Labsphere2019.load env (mkLoader r)).fst)) := by
  refine ⟨fun env flag l => rfl, ?_⟩
  intro env r hr
  have hi : DatasetLoader_Labsphere2019.init env = Except.ok (mkLoader r) := by
    unfold DatasetLoader_Labsphere2019.init
    rw [hr]
  constructor
  · unfold build_Labsphere2019
    rw [hi]
    rfl
  · unfold build_Labsphere2019
    rw [hi]
    rcases hl : DatasetLoader_Labsphere2019.load env (mkLoader r) with ⟨inst2, res⟩
    cases res <;> simp [hl]

/-- C3 witness: a concrete later call with the slot filled, and a concrete
first construction. -/
theorem C3_witness :
    build_Labsphere2019 wEnvSyncFail true (some wLoaded) =
      (some wLoaded, Except.ok wLoaded) ∧
    build_Labsphere2019 wEnvOk false none =
      (some (mkLoader wRec), Except.ok (mkLoader wRec)) :=
  ⟨C3_singleton_build.1 wEnvSyncFail true wLoaded,
    (C3_singleton_build.2 wEnvOk wRec (by decide)).1⟩

/-- C4: when the very first `build_Labsphere2019 env true none` call
constructs the instance but its eager `load()` fails, the factory re-raises
the load error, the slot keeps the constructed instance whose `content` is
still absent, and any subsequent call — whatever its flag — returns that
cached instance as-is without loading it again. -/
theorem C4_eager_load_failure :
    ∀ (env env2 : Env) (flag : Bool) (r : Record) (e : LoadError),
      env.datasets DatasetLoader_Labsphere2019.ID = some r →
      (DatasetLoader_Labsphere2019.load env (mkLoader r)).snd = Except.error e →
      build_Labsphere2019 env true none =
        (some (mkLoader r), Except.error (BuildError.loadFailed e)) ∧
      (mkLoader r).content = none ∧
      build_Labsphere2019 env2 flag (some (mkLoader r)) =
        (some (mkLoader r), Except.ok (mkLoader r)) := by
  intro env env2 flag r e hr he
  have hl : DatasetLoader_Labsphere2019.load env (mkLoader r) =
      (mkLoader r, Except.error e) := by
    have h0 : DatasetLoader_Labsphere2019.load env (mkLoader r) =
        ((DatasetLoader_Labsphere2019.load env (mkLoader r)).fst,
          (DatasetLoader_Labsphere2019.load env (mkLoader r)).snd) := rfl
    rw [he] at h0
    rw [h0, load_error_state env (mkLoader r) _ e h0]
  have hi : DatasetLoader_Labsphere2019.init env = Except.ok (mkLoader r) := by
    unfold DatasetLoader_Labsphere2019.init
    rw [hr]
  refine ⟨?_, rfl, rfl⟩
  unfold build_Labsphere2019
  rw [hi]
  simp [hl]

/-- C4 witness: first call with an eagerly failing Synchronizer, then a
later call. -/
theorem C4_witness :
    build_Labsphere2019 wEnvSyncFail true none =
      (some (mkLoader wRec), Except.error (BuildError.loadFailed LoadError.syncError)) ∧
    build_Labsphere2019 wEnvOk true (some (mkLoader wRec)) =
      (some (mkLoader wRec), Except.ok (mkLoader wRec)) :=
  have h := C4_eager_load_failure wEnvSyncFail wEnvOk true wRec
    LoadError.syncError (by decide) (by decide)
  ⟨h.1, h.2.2⟩

/-- C9: when construction itself fails on a first `build_Labsphere2019`
call (the resolver raises before the slot assignment), the slot is left
empty, so a later call retries construction — and once the resolver
answers, the retried call fills the slot. -/
theorem C9_construction_failure_leaves_slot_empty :
    ∀ (env env2 : Env) (f f2 : Bool) (r : Record),
      env.datasets DatasetLoader_Labsphere2019.ID = none →
      env2.datasets DatasetLoader_Labsphere2019.ID = some r →
      build_Labsphere2019 env f none =
        (none, Except.error BuildError.unknownDataset) ∧
      ((build_Labsphere2019 env2 f2 ((build_Labsphere2019 env f none).fst)).fst).isSome
        = true := by
  intro env env2 f f2 r h1 h2
  have hi : DatasetLoader_Labsphere2019.init env =
      Except.error BuildError.unknownDataset := by
    unfold DatasetLoader_Labsphere2019.init
    rw [h1]
  have hb : build_Labsphere2019 env f none =
      (none, Except.error BuildError.unknownDataset) := by
    unfold build_Labsphere2019
    rw [hi]
  have hi2 : DatasetLoader_Labsphere2019.init env2 = Except.ok (mkLoader r) := by
    unfold DatasetLoader_Labsphere2019.init
    rw [h2]
  refine ⟨hb, ?_⟩
  rw [hb]
  simp only
  unfold build_Labsphere2019
  rw [hi2]
  simp only
  cases f2
  · rfl
  · rcases hl : DatasetLoader_Labsphere2019.load env2 (mkLoader r) with ⟨inst2, res⟩
    cases res <;> simp

/-- C9 witness: a resolver that knows no dataset, then the healthy one. -/
theorem C9_witness :
    build_Labsphere2019
        { syncOk := true, datasets := fun _ => none, fs := wEnvOk.fs } true none =
      (none, Except.error BuildError.unknownDataset) ∧
    ((build_Labsphere2019 wEnvOk true
        ((build_Labsphere2019
          { syncOk := true, datasets := fun _ => none, fs := wEnvOk.fs }
          true none).fst)).fst).isSome = true :=
  C9_construction_failure_leaves_slot_empty
    { syncOk := true, datasets := fun _ => none, fs := wEnvOk.fs }
    wEnvOk true true wRec rfl (by decide)

/-- C1 counterexample: on the literal two-header-row dataset the parser step
produces a spectral distribution whose domain is the value column
[0.98, 0.99, 1.00] and whose range is the wavelength column [400, 500, 600]
— not, as claimed, domain [400, 500, 600] and range [0.98, 0.99, 1.00]. -/
theorem C1_counterexample :
    parseSRS (some C1content) = Except.ok C1sd ∧
      C1sd.domain ≠ [(400 : Rat), 500, 600] ∧
      C1sd.range ≠ [(0.98 : Rat), 0.99, 1.00] :=
  ⟨by decide, by decide, by decide⟩

/-- C1 amended: on the literal dataset, `load()` produces exactly one
spectral distribution, named "Labsphere SRS-99-020", with domain
[0.98, 0.99, 1.00] (column 0, the values) and range [400, 500, 600]
(column 1, the wavelengths), since the code passes column 1 as the
constructor's data argument and column 0 as its domain argument; the parse
is a pure function of the bytes, so re-parsing yields the identical result. -/
theorem C1_amended_parse :
    DatasetLoader_Labsphere2019.load wEnvOk (mkLoader wRec) =
      (wLoaded, Except.ok wContent) ∧
      wContent = [("Labsphere SRS-99-020", C1sd)] ∧
      C1sd.domain = [(0.98 : Rat), 0.99, 1.00] ∧
      C1sd.range = [(400 : Rat), 500, 600] :=
  ⟨by decide, rfl, by decide, by decide⟩


/-- C5 counterexample: `load()` succeeds — with no error of any kind — on a
repository whose wavelength column is not strictly monotonically
increasing, so the parser step performs no monotonicity validation (and no
`ParseError` type exists anywhere in the code). -/
theorem C5_counterexample :
    DatasetLoader_Labsphere2019.load C5env (mkLoader wRec) =
      ({ record := wRec, content := some [("Labsphere SRS-99-020", C5sd)] },
        Except.ok [("Labsphere SRS-99-020", C5sd)]) := by decide


/-- C5 amended: the parser step performs no validation of its own and there
is no `ParseError`: a missing data file makes `load()` fail with the
underlying reader's IO error, rows that parse to mismatched field counts
(or non-numeric fields) make it fail with the reader's value error — each
time leaving the loader unchanged — while a non-monotonic wavelength
column is accepted and `load()` succeeds. -/
theorem C5_amended_no_validation :
    (∀ (env : Env) (s : DatasetLoader_Labsphere2019),
        env.syncOk = true → env.fs (sdPathStr s.record) = none →
        DatasetLoader_Labsphere2019.load env s =
          (s, Except.error LoadError.ioError)) ∧
    (∀ (env : Env) (s : DatasetLoader_Labsphere2019) (cs : List Char),
        env.syncOk = true → env.fs (sdPathStr s.record) = some cs →
        loadtxtRows cs = Except.error LoadError.valueError →
        DatasetLoader_Labsphere2019.load env s =
          (s, Except.error LoadError.valueError)) := by
  constructor
  · intro env s h1 h2
    unfold DatasetLoader_Labsphere2019.load
    rw [h1, h2]
    rfl
  · intro env s cs h1 h2 h3
    have hp : parseSRS (some cs) = Except.error LoadError.valueError := by
      simp only [parseSRS]
      rw [h3]
    unfold DatasetLoader_Labsphere2019.load
    rw [h1, h2, hp]
    rfl

/-- C5 witness: a concrete missing file and a concrete ragged file. -/
theorem C5_witness :
    DatasetLoader_Labsphere2019.load C5envMissing (mkLoader wRec) =
      (mkLoader wRec, Except.error LoadError.ioError) ∧
    DatasetLoader_Labsphere2019.load C5envRagged (mkLoader wRec) =
      (mkLoader wRec, Except.error LoadError.valueError) :=
  ⟨C5_amended_no_validation.1 C5envMissing (mkLoader wRec) rfl rfl,
    C5_amended_no_validation.2 C5envRagged (mkLoader wRec) C5ragged rfl
      (by decide) (by decide)⟩

/-- A fold of one-character replacements acts pointwise. -/
theorem foldl_replaceChar (subs : List (Char × Char)) (cs : List Char) :
    subs.foldl (fun acc kv => replaceChar kv.fst kv.snd acc) cs =
      cs.map (fun c => subs.foldl (fun a kv => if a = kv.fst then kv.snd else a) c) := by
  induction subs generalizing cs with
  | nil => simp
  | cons kv subs ih =>
      simp only [List.foldl_cons]
      rw [ih (replaceChar kv.fst kv.snd cs)]
      simp [replaceChar, List.map_map, Function.comp]

theorem substitute_eq_map (cs : List Char) : substitute cs = cs.map substOne := by
  unfold substitute substOne
  exact foldl_replaceChar SUBSTITUTIONS cs

/-- A character that is no key of `SUBSTITUTIONS` passes the substitution
loop unchanged. -/
theorem substOne_eq_self (c : Char) (h : isKey c = false) : substOne c = c := by
  simp only [isKey, SUBSTITUTIONS, List.map_cons, List.map_nil, List.contains_cons,
    List.contains_nil, Bool.or_eq_false_iff, beq_eq_false_iff_ne, ne_eq] at h
  obtain ⟨h1, h2, h3, h4, h5, h6, -⟩ := h
  simp [substOne, SUBSTITUTIONS, h1, h2, h3, h4, h5, h6]

/-- No value of `SUBSTITUTIONS` is itself a key, so the substitution loop
never produces a key. -/
theorem substOne_not_key (c : Char) : isKey (substOne c) = false := by
  cases hk : isKey c with
  | false => rw [substOne_eq_self c hk]; exact hk
  | true =>
      have hmem : c = '–' ∨ c = '“' ∨ c = '”' ∨ c = '‘' ∨ c = '’' ∨ c = '′' := by
        simpa [isKey, SUBSTITUTIONS] using hk
      rcases hmem with h | h | h | h | h | h <;> subst h <;> decide

/-- One pass of the substitution loop leaves a key-free text. -/
theorem keyFree_substitute (cs : List Char) : keyFree (substitute cs) = true := by
  rw [substitute_eq_map]
  unfold keyFree
  rw [List.all_eq_true]
  intro c hc
  obtain ⟨a, ha, hae⟩ := List.mem_map.mp hc
  rw [← hae]
  simp [substOne_not_key]

/-- On a key-free text the substitution loop is the identity. -/
theorem substitute_of_keyFree (cs : List Char) (h : keyFree cs = true) :
    substitute cs = cs := by
  rw [substitute_eq_map]
  have hpt : ∀ c ∈ cs, substOne c = id c := by
    intro c hc
    have hc2 := List.all_eq_true.mp h c hc
    simp only [Bool.not_eq_eq_eq_not, Bool.not_true] at hc2
    exact substOne_eq_self c hc2
  calc cs.map substOne = cs.map id := List.map_congr_left hpt
    _ = cs := List.map_id cs

/-- C10: for every normalization function that is idempotent and never
introduces a key of `SUBSTITUTIONS` into a key-free text — two documented
properties of Unicode NFD, whose canonical decompositions never produce the
en dash, curly quotes or prime — the per-file transformation of
`unicode_to_ascii` (substitutions, then normalization) is idempotent on
every input, so a second run over an unchanged directory rewrites every
file to its existing content. -/
theorem C10_transform_idempotent :
    ∀ (normalize : List Char → List Char),
      (∀ cs, normalize (normalize cs) = normalize cs) →
      (∀ cs, keyFree cs = true → keyFree (normalize cs) = true) →
      (∀ cs, unicode_to_ascii_transform normalize
          (unicode_to_ascii_transform normalize cs) =
            unicode_to_ascii_transform normalize cs) ∧
      (∀ files, unicode_to_ascii normalize (unicode_to_ascii normalize files) =
          unicode_to_ascii normalize files) := by
  intro normalize hidem hkeys
  have htrans : ∀ cs, unicode_to_ascii_transform normalize
      (unicode_to_ascii_transform normalize cs) =
        unicode_to_ascii_transform normalize cs := by
    intro cs
    unfold unicode_to_ascii_transform
    rw [substitute_of_keyFree (normalize (substitute cs))
        (hkeys (substitute cs) (keyFree_substitute cs)), hidem]
  refine ⟨htrans, ?_⟩
  intro files
  unfold unicode_to_ascii
  rw [List.map_map]
  apply List.map_congr_left
  intro f _
  by_cases he : eligibleFile f.fst
  · simp [Function.comp, he, htrans]
  · simp [Function.comp, he]


theorem decomposeDemo_fix (c : Char) :
    (decomposeDemo c).flatMap decomposeDemo = decomposeDemo c := by
  by_cases h : c = 'é'
  · subst h; decide
  · simp [decomposeDemo, h]

theorem nfdDemo_idem : ∀ cs, nfdDemo (nfdDemo cs) = nfdDemo cs := by
  intro cs
  induction cs with
  | nil => rfl
  | cons c cs ih =>
      unfold nfdDemo at *
      rw [List.flatMap_cons, List.flatMap_append, decomposeDemo_fix, ih]

theorem decomposeDemo_keyFree (c : Char) (h : isKey c = false) :
    keyFree (decomposeDemo c) = true := by
  by_cases hc : c = 'é'
  · subst hc; decide
  · simp [decomposeDemo, hc, keyFree, h]

theorem nfdDemo_keyFree : ∀ cs, keyFree cs = true → keyFree (nfdDemo cs) = true := by
  intro cs
  induction cs with
  | nil => intro h; rfl
  | cons c cs ih =>
      intro h
      simp only [keyFree, List.all_cons, Bool.and_eq_true] at h
      have h1 : isKey c = false := by
        have := h.1
        simpa [Bool.not_eq_eq_eq_not, Bool.not_true] using this
      have h2 : keyFree cs = true := by
        simpa [keyFree] using h.2
      show keyFree (decomposeDemo c ++ nfdDemo cs) = true
      simp only [keyFree, List.all_append, Bool.and_eq_true]
      exact ⟨by simpa [keyFree] using decomposeDemo_keyFree c h1,
        by simpa [keyFree] using ih h2⟩


/-- C10 witness: the idempotence instantiated with the miniature
decomposition on a text holding keys and a decomposable letter, and on a
one-file directory. -/
theorem C10_witness :
    (unicode_to_ascii_transform nfdDemo
        (unicode_to_ascii_transform nfdDemo C10demoText) =
      unicode_to_ascii_transform nfdDemo C10demoText) ∧
    (unicode_to_ascii nfdDemo
        (unicode_to_ascii nfdDemo [("a.py".data, C10demoText)]) =
      unicode_to_ascii nfdDemo [("a.py".data, C10demoText)]) :=
  ⟨(C10_transform_idempotent nfdDemo nfdDemo_idem nfdDemo_keyFree).1 C10demoText,
    (C10_transform_idempotent nfdDemo nfdDemo_idem nfdDemo_keyFree).2
      [("a.py".data, C10demoText)]⟩
